import Mathlib

/-!
Verification development for the DerivaSharp notebook bootstrap script
(notebooks/common_imports.py). The script is a linear, one-shot sequence of
eleven side-effecting statements:

  1.  from pythonnet import load
  2.  load("coreclr")
  3.  import os
  4.  import clr
  5.  clr.AddReference(os.path.abspath(relative artifact path))
  6.  import matplotlib.pyplot as plt
  7.  import numpy as np
  8.  import pandas as pd
  9.  import DerivaSharp.Instruments as Instruments
  10. import DerivaSharp.PricingEngines as PricingEngines
  11. from System import DateOnly

We embed it as a list of steps over an ambient environment (which Python
packages are installed, whether the .NET runtime is discoverable, the
process working directory, the filesystem, which namespaces the artifact
exposes) and an interpreter state (names bound in the calling scope, the
bridge flag, referenced and loaded assemblies). Each attempted step is
recorded in a trace; the first failing step aborts the remaining sequence
and surfaces its error, exactly as an uncaught Python exception would.
-/

namespace DerivaSharpBootstrap

/-- One trace event per statement of the script that can be attempted. -/
inductive Event
  | importPythonnetLoad
  | bridgeInit
  | importOs
  | importClr
  | artifactLoad
  | importMatplotlib
  | importNumpy
  | importPandas
  | importInstruments
  | importPricingEngines
  | importDateOnly
deriving DecidableEq

/-- A filesystem path, represented as its list of segments together with
whether it is absolute. -/
structure FsPath where
  absolute : Bool
  segments : List String
deriving DecidableEq

/-- The failure classes the script can surface, none of which it catches:
module-not-found on a Python import, runtime-not-found from load of coreclr,
file-not-found or bad-image-format from clr.AddReference, and import-error
on a from-import of a missing attribute. -/
inductive PyError
  | moduleNotFoundError (name : String)
  | importError (name : String)
  | runtimeNotFoundError
  | fileNotFoundError (path : FsPath)
  | badImageFormatError (path : FsPath)
deriving DecidableEq

/-- Ambient environment the script runs in: installed packages, runtime
discoverability, process working directory, script directory, filesystem
contents, artifact compatibility and exposed namespaces. -/
structure Env where
  pythonnetInstalled : Bool
  coreclrAvailable : Bool
  cwd : FsPath
  scriptDir : FsPath
  fileExists : FsPath → Bool
  artifactCompatible : Bool
  matplotlibInstalled : Bool
  numpyInstalled : Bool
  pandasInstalled : Bool
  artifactHasInstruments : Bool
  artifactHasPricingEngines : Bool
  dateOnlyAvailable : Bool

/-- Observable interpreter state: names bound in the calling scope, whether
the runtime bridge is active, every path passed to clr.AddReference, and
every assembly path successfully loaded. -/
structure CoreState where
  boundNames : List String
  bridgeInitialized : Bool
  loadedAssemblies : List FsPath
  referencedPaths : List FsPath
deriving DecidableEq

/-- A statement of the script: the trace event it logs when attempted, and
its action on the state, which either succeeds with a new state or fails
with an error, leaving prior bindings in place. -/
structure Step where
  evt : Event
  act : Env → CoreState → CoreState × Option PyError

/-- Result of running a sequence of statements: final state, the trace of
attempted statements, and the uncaught error if one aborted the run. -/
structure RunResult where
  core : CoreState
  trace : List Event
  err : Option PyError
deriving DecidableEq

/-- Binding a name in the calling scope; rebinding an already-bound name
leaves the set of resolvable names unchanged. -/
def bindName (n : String) (s : CoreState) : CoreState :=
  if n ∈ s.boundNames then s else { s with boundNames := n :: s.boundNames }

/-- The relative artifact path hard-coded on line 8 of the script,
segment by segment. -/
def artifactRelPath : FsPath :=
  ⟨false, ["..", "src", "DerivaSharp", "bin", "Release", "net9.0", "win-x64",
           "publish", "DerivaSharp.dll"]⟩

/-- Model of os.path.normpath on the segments of an absolute path: a
dot-dot segment removes the segment before it (at the root it is simply
dropped, as normpath does for absolute paths), and a lone dot segment is
dropped. -/
def normSegments (segs : List String) : List String :=
  segs.foldl
    (fun acc seg =>
      if seg = ".." then acc.dropLast
      else if seg = "." then acc
      else acc ++ [seg])
    []

/-- Model of os.path.abspath, which is normpath(join(cwd, path)): a path
that is not already absolute is joined to the process current working
directory, and the result is normalized. -/
def abspath (cwd path : FsPath) : FsPath :=
  if path.absolute then ⟨path.absolute, normSegments path.segments⟩
  else ⟨cwd.absolute, normSegments (cwd.segments ++ path.segments)⟩

/-- The spec reads the artifact path as resolved relative to the invoking
script location; this definition follows those words, for comparison with
the path the code actually computes. -/
def specResolvedArtifactPath (env : Env) : FsPath :=
  abspath env.scriptDir artifactRelPath

/-- Line 1: from pythonnet import load. Binds the name load; fails with
module-not-found when pythonnet is not installed. -/
def stepImportPythonnetLoad : Step where
  evt := Event.importPythonnetLoad
  act := fun env s =>
    if env.pythonnetInstalled then (bindName ("load") s, none)
    else (s, some (PyError.moduleNotFoundError ("pythonnet")))

/-- Line 3: load of the coreclr runtime. Activates the bridge; fails when
the hosted runtime is not discoverable. -/
def stepLoadCoreclr : Step where
  evt := Event.bridgeInit
  act := fun env s =>
    if env.coreclrAvailable then ({ s with bridgeInitialized := true }, none)
    else (s, some PyError.runtimeNotFoundError)

/-- Line 5: import os. Standard-library import, always succeeds. -/
def stepImportOs : Step where
  evt := Event.importOs
  act := fun _ s => (bindName ("os") s, none)

/-- Line 6: import clr. Provided by pythonnet; fails only when pythonnet
is missing, which the script flow has already ruled out by this point. -/
def stepImportClr : Step where
  evt := Event.importClr
  act := fun env s =>
    if env.pythonnetInstalled then (bindName ("clr") s, none)
    else (s, some (PyError.moduleNotFoundError ("clr")))

/-- Line 8: clr.AddReference of the abspath of the fixed relative artifact
path. Records the argument passed, then fails with file-not-found when the
path does not exist, with bad-image-format when the binary is incompatible
with the active runtime, and otherwise records the loaded assembly. Binds
no name. -/
def stepAddReference : Step where
  evt := Event.artifactLoad
  act := fun env s =>
    let p := abspath env.cwd artifactRelPath
    let s1 := { s with referencedPaths := s.referencedPaths ++ [p] }
    if env.fileExists p then
      if env.artifactCompatible then
        ({ s1 with loadedAssemblies := s1.loadedAssemblies ++ [p] }, none)
      else (s1, some (PyError.badImageFormatError p))
    else (s1, some (PyError.fileNotFoundError p))

/-- Line 10: import matplotlib.pyplot as plt. -/
def stepImportMatplotlib : Step where
  evt := Event.importMatplotlib
  act := fun env s =>
    if env.matplotlibInstalled then (bindName ("plt") s, none)
    else (s, some (PyError.moduleNotFoundError ("matplotlib")))

/-- Line 11: import numpy as np. -/
def stepImportNumpy : Step where
  evt := Event.importNumpy
  act := fun env s =>
    if env.numpyInstalled then (bindName ("np") s, none)
    else (s, some (PyError.moduleNotFoundError ("numpy")))

/-- Line 12: import pandas as pd. -/
def stepImportPandas : Step where
  evt := Event.importPandas
  act := fun env s =>
    if env.pandasInstalled then (bindName ("pd") s, none)
    else (s, some (PyError.moduleNotFoundError ("pandas")))

/-- Line 14: import DerivaSharp.Instruments as Instruments. Reached only
after a successful artifact load in this linear script; fails with a
name-resolution error when the loaded artifact does not expose the
Instruments namespace. -/
def stepImportInstruments : Step where
  evt := Event.importInstruments
  act := fun env s =>
    if env.artifactHasInstruments then (bindName ("Instruments") s, none)
    else (s, some (PyError.moduleNotFoundError ("DerivaSharp.Instruments")))

/-- Line 15: import DerivaSharp.PricingEngines as PricingEngines. Fails
with a name-resolution error when the loaded artifact does not expose the
PricingEngines namespace. -/
def stepImportPricingEngines : Step where
  evt := Event.importPricingEngines
  act := fun env s =>
    if env.artifactHasPricingEngines then (bindName ("PricingEngines") s, none)
    else (s, some (PyError.moduleNotFoundError ("DerivaSharp.PricingEngines")))

/-- Line 16: from System import DateOnly. Fails with an import error when
the hosted base library does not provide the DateOnly type. -/
def stepImportDateOnly : Step where
  evt := Event.importDateOnly
  act := fun env s =>
    if env.dateOnlyAvailable then (bindName ("DateOnly") s, none)
    else (s, some (PyError.importError ("System.DateOnly")))

/-- The eleven statements of the script, in source order. -/
def scriptSteps : List Step :=
  [stepImportPythonnetLoad, stepLoadCoreclr, stepImportOs, stepImportClr,
   stepAddReference, stepImportMatplotlib, stepImportNumpy, stepImportPandas,
   stepImportInstruments, stepImportPricingEngines, stepImportDateOnly]

/-- Run a sequence of statements: each attempted statement logs its event;
the first failure aborts the remaining sequence, keeps the state reached so
far, and surfaces the error uncaught. -/
def runSteps (env : Env) : List Step → CoreState → List Event → RunResult
  | [], s, tr => ⟨s, tr, none⟩
  | st :: rest, s, tr =>
    match st.act env s with
    | (s1, none) => runSteps env rest s1 (tr ++ [st.evt])
    | (s1, some e) => ⟨s1, tr ++ [st.evt], some e⟩

/-- Run the whole script from a given starting state (used to model a
second invocation in the same session). -/
def runFrom (env : Env) (s : CoreState) : RunResult :=
  runSteps env scriptSteps s []

/-- The empty state of a fresh session. -/
def initCore : CoreState := ⟨[], false, [], []⟩

/-- Run the bootstrap once in a fresh session; it takes no parameters
beyond the ambient environment. -/
def runScript (env : Env) : RunResult :=
  runFrom env initCore

/-- The trace of a fully successful run: every statement attempted once,
in source order. -/
def fullTrace : List Event := scriptSteps.map Step.evt

/-- The five advertised utility and domain names plus the date-value type. -/
def advertisedNames : List String :=
  ["plt", "np", "pd", "Instruments", "PricingEngines", "DateOnly"]

/-- An environment in which every precondition holds: runtime discoverable,
packages installed, artifact present, compatible, and exposing both domain
namespaces. -/
def validEnv : Env where
  pythonnetInstalled := true
  coreclrAvailable := true
  cwd := ⟨true, ["nb"]⟩
  scriptDir := ⟨true, ["nb"]⟩
  fileExists := fun _ => true
  artifactCompatible := true
  matplotlibInstalled := true
  numpyInstalled := true
  pandasInstalled := true
  artifactHasInstruments := true
  artifactHasPricingEngines := true
  dateOnlyAvailable := true

/-- A valid environment in which the process working directory /home/user
differs from the directory /nb holding the invoking script: resolving the
relative artifact path against the working directory yields /home/src/...,
while resolving it against the script directory yields /src/.... -/
def envCwdElsewhere : Env :=
  { validEnv with cwd := ⟨true, ["home", "user"]⟩, scriptDir := ⟨true, ["nb"]⟩ }

/-- Same observable environment as validEnv, but with a different script
directory and a filesystem that only contains the one relevant artifact
path: used to exhibit that behavior depends on nothing else. -/
def envObsTwin : Env :=
  { validEnv with
      scriptDir := ⟨true, ["somewhere", "else"]⟩
      fileExists := fun p =>
        decide (p = abspath (⟨true, ["nb"]⟩ : FsPath) artifactRelPath) }

/-- Environment with the runtime bridge not discoverable. -/
def envNoCoreclr : Env := { validEnv with coreclrAvailable := false }

/-- Environment in which the artifact path does not exist. -/
def envNoArtifact : Env := { validEnv with fileExists := fun _ => false }

/-- Environment in which the artifact lacks the PricingEngines namespace. -/
def envNoPricingEngines : Env :=
  { validEnv with artifactHasPricingEngines := false }

/-- Environment with matplotlib missing but everything else valid. -/
def envNoMatplotlib : Env := { validEnv with matplotlibInstalled := false }

/-! ### Execution-path lemmas

The script short-circuits at its first failing statement, so every run
follows one of twelve paths, determined by the ambient environment. One
lemma per path computes the full run result. -/

theorem run_pythonnetMissing (env : Env)
    (h1 : env.pythonnetInstalled = false) :
    runScript env =
      ⟨⟨[], false, [], []⟩, [Event.importPythonnetLoad],
       some (PyError.moduleNotFoundError ("pythonnet"))⟩ := by
  simp [runScript, runFrom, runSteps, scriptSteps, initCore,
    stepImportPythonnetLoad, stepLoadCoreclr, stepImportOs, stepImportClr,
    stepAddReference, stepImportMatplotlib, stepImportNumpy, stepImportPandas,
    stepImportInstruments, stepImportPricingEngines, stepImportDateOnly,
    bindName, h1]

theorem run_coreclrMissing (env : Env)
    (h1 : env.pythonnetInstalled = true) (h2 : env.coreclrAvailable = false) :
    runScript env =
      ⟨⟨["load"], false, [], []⟩,
       [Event.importPythonnetLoad, Event.bridgeInit],
       some PyError.runtimeNotFoundError⟩ := by
  simp [runScript, runFrom, runSteps, scriptSteps, initCore,
    stepImportPythonnetLoad, stepLoadCoreclr, stepImportOs, stepImportClr,
    stepAddReference, stepImportMatplotlib, stepImportNumpy, stepImportPandas,
    stepImportInstruments, stepImportPricingEngines, stepImportDateOnly,
    bindName, h1, h2]

theorem run_artifactMissing (env : Env)
    (h1 : env.pythonnetInstalled = true) (h2 : env.coreclrAvailable = true)
    (h3 : env.fileExists (abspath env.cwd artifactRelPath) = false) :
    runScript env =
      ⟨⟨["clr", "os", "load"], true, [], [abspath env.cwd artifactRelPath]⟩,
       [Event.importPythonnetLoad, Event.bridgeInit, Event.importOs,
        Event.importClr, Event.artifactLoad],
       some (PyError.fileNotFoundError (abspath env.cwd artifactRelPath))⟩ := by
  simp [runScript, runFrom, runSteps, scriptSteps, initCore,
    stepImportPythonnetLoad, stepLoadCoreclr, stepImportOs, stepImportClr,
    stepAddReference, stepImportMatplotlib, stepImportNumpy, stepImportPandas,
    stepImportInstruments, stepImportPricingEngines, stepImportDateOnly,
    bindName, h1, h2, h3]

theorem run_artifactIncompatible (env : Env)
    (h1 : env.pythonnetInstalled = true) (h2 : env.coreclrAvailable = true)
    (h3 : env.fileExists (abspath env.cwd artifactRelPath) = true)
    (h4 : env.artifactCompatible = false) :
    runScript env =
      ⟨⟨["clr", "os", "load"], true, [], [abspath env.cwd artifactRelPath]⟩,
       [Event.importPythonnetLoad, Event.bridgeInit, Event.importOs,
        Event.importClr, Event.artifactLoad],
       some (PyError.badImageFormatError (abspath env.cwd artifactRelPath))⟩ := by
  simp [runScript, runFrom, runSteps, scriptSteps, initCore,
    stepImportPythonnetLoad, stepLoadCoreclr, stepImportOs, stepImportClr,
    stepAddReference, stepImportMatplotlib, stepImportNumpy, stepImportPandas,
    stepImportInstruments, stepImportPricingEngines, stepImportDateOnly,
    bindName, h1, h2, h3, h4]

theorem run_matplotlibMissing (env : Env)
    (h1 : env.pythonnetInstalled = true) (h2 : env.coreclrAvailable = true)
    (h3 : env.fileExists (abspath env.cwd artifactRelPath) = true)
    (h4 : env.artifactCompatible = true)
    (h5 : env.matplotlibInstalled = false) :
    runScript env =
      ⟨⟨["clr", "os", "load"], true, [abspath env.cwd artifactRelPath],
        [abspath env.cwd artifactRelPath]⟩,
       [Event.importPythonnetLoad, Event.bridgeInit, Event.importOs,
        Event.importClr, Event.artifactLoad, Event.importMatplotlib],
       some (PyError.moduleNotFoundError ("matplotlib"))⟩ := by
  simp [runScript, runFrom, runSteps, scriptSteps, initCore,
    stepImportPythonnetLoad, stepLoadCoreclr, stepImportOs, stepImportClr,
    stepAddReference, stepImportMatplotlib, stepImportNumpy, stepImportPandas,
    stepImportInstruments, stepImportPricingEngines, stepImportDateOnly,
    bindName, h1, h2, h3, h4, h5]

theorem run_numpyMissing (env : Env)
    (h1 : env.pythonnetInstalled = true) (h2 : env.coreclrAvailable = true)
    (h3 : env.fileExists (abspath env.cwd artifactRelPath) = true)
    (h4 : env.artifactCompatible = true)
    (h5 : env.matplotlibInstalled = true) (h6 : env.numpyInstalled = false) :
    runScript env =
      ⟨⟨["plt", "clr", "os", "load"], true, [abspath env.cwd artifactRelPath],
        [abspath env.cwd artifactRelPath]⟩,
       [Event.importPythonnetLoad, Event.bridgeInit, Event.importOs,
        Event.importClr, Event.artifactLoad, Event.importMatplotlib,
        Event.importNumpy],
       some (PyError.moduleNotFoundError ("numpy"))⟩ := by
  simp [runScript, runFrom, runSteps, scriptSteps, initCore,
    stepImportPythonnetLoad, stepLoadCoreclr, stepImportOs, stepImportClr,
    stepAddReference, stepImportMatplotlib, stepImportNumpy, stepImportPandas,
    stepImportInstruments, stepImportPricingEngines, stepImportDateOnly,
    bindName, h1, h2, h3, h4, h5, h6]

theorem run_pandasMissing (env : Env)
    (h1 : env.pythonnetInstalled = true) (h2 : env.coreclrAvailable = true)
    (h3 : env.fileExists (abspath env.cwd artifactRelPath) = true)
    (h4 : env.artifactCompatible = true)
    (h5 : env.matplotlibInstalled = true) (h6 : env.numpyInstalled = true)
    (h7 : env.pandasInstalled = false) :
    runScript env =
      ⟨⟨["np", "plt", "clr", "os", "load"], true,
        [abspath env.cwd artifactRelPath], [abspath env.cwd artifactRelPath]⟩,
       [Event.importPythonnetLoad, Event.bridgeInit, Event.importOs,
        Event.importClr, Event.artifactLoad, Event.importMatplotlib,
        Event.importNumpy, Event.importPandas],
       some (PyError.moduleNotFoundError ("pandas"))⟩ := by
  simp [runScript, runFrom, runSteps, scriptSteps, initCore,
    stepImportPythonnetLoad, stepLoadCoreclr, stepImportOs, stepImportClr,
    stepAddReference, stepImportMatplotlib, stepImportNumpy, stepImportPandas,
    stepImportInstruments, stepImportPricingEngines, stepImportDateOnly,
    bindName, h1, h2, h3, h4, h5, h6, h7]

theorem run_instrumentsMissing (env : Env)
    (h1 : env.pythonnetInstalled = true) (h2 : env.coreclrAvailable = true)
    (h3 : env.fileExists (abspath env.cwd artifactRelPath) = true)
    (h4 : env.artifactCompatible = true)
    (h5 : env.matplotlibInstalled = true) (h6 : env.numpyInstalled = true)
    (h7 : env.pandasInstalled = true)
    (h8 : env.artifactHasInstruments = false) :
    runScript env =
      ⟨⟨["pd", "np", "plt", "clr", "os", "load"], true,
        [abspath env.cwd artifactRelPath], [abspath env.cwd artifactRelPath]⟩,
       [Event.importPythonnetLoad, Event.bridgeInit, Event.importOs,
        Event.importClr, Event.artifactLoad, Event.importMatplotlib,
        Event.importNumpy, Event.importPandas, Event.importInstruments],
       some (PyError.moduleNotFoundError ("DerivaSharp.Instruments"))⟩ := by
  simp [runScript, runFrom, runSteps, scriptSteps, initCore,
    stepImportPythonnetLoad, stepLoadCoreclr, stepImportOs, stepImportClr,
    stepAddReference, stepImportMatplotlib, stepImportNumpy, stepImportPandas,
    stepImportInstruments, stepImportPricingEngines, stepImportDateOnly,
    bindName, h1, h2, h3, h4, h5, h6, h7, h8]

theorem run_pricingEnginesMissing (env : Env)
    (h1 : env.pythonnetInstalled = true) (h2 : env.coreclrAvailable = true)
    (h3 : env.fileExists (abspath env.cwd artifactRelPath) = true)
    (h4 : env.artifactCompatible = true)
    (h5 : env.matplotlibInstalled = true) (h6 : env.numpyInstalled = true)
    (h7 : env.pandasInstalled = true)
    (h8 : env.artifactHasInstruments = true)
    (h9 : env.artifactHasPricingEngines = false) :
    runScript env =
      ⟨⟨["Instruments", "pd", "np", "plt", "clr", "os", "load"], true,
        [abspath env.cwd artifactRelPath], [abspath env.cwd artifactRelPath]⟩,
       [Event.importPythonnetLoad, Event.bridgeInit, Event.importOs,
        Event.importClr, Event.artifactLoad, Event.importMatplotlib,
        Event.importNumpy, Event.importPandas, Event.importInstruments,
        Event.importPricingEngines],
       some (PyError.moduleNotFoundError ("DerivaSharp.PricingEngines"))⟩ := by
  simp [runScript, runFrom, runSteps, scriptSteps, initCore,
    stepImportPythonnetLoad, stepLoadCoreclr, stepImportOs, stepImportClr,
    stepAddReference, stepImportMatplotlib, stepImportNumpy, stepImportPandas,
    stepImportInstruments, stepImportPricingEngines, stepImportDateOnly,
    bindName, h1, h2, h3, h4, h5, h6, h7, h8, h9]

theorem run_dateOnlyMissing (env : Env)
    (h1 : env.pythonnetInstalled = true) (h2 : env.coreclrAvailable = true)
    (h3 : env.fileExists (abspath env.cwd artifactRelPath) = true)
    (h4 : env.artifactCompatible = true)
    (h5 : env.matplotlibInstalled = true) (h6 : env.numpyInstalled = true)
    (h7 : env.pandasInstalled = true)
    (h8 : env.artifactHasInstruments = true)
    (h9 : env.artifactHasPricingEngines = true)
    (h10 : env.dateOnlyAvailable = false) :
    runScript env =
      ⟨⟨["PricingEngines", "Instruments", "pd", "np", "plt", "clr", "os", "load"],
        true, [abspath env.cwd artifactRelPath], [abspath env.cwd artifactRelPath]⟩,
       [Event.importPythonnetLoad, Event.bridgeInit, Event.importOs,
        Event.importClr, Event.artifactLoad, Event.importMatplotlib,
        Event.importNumpy, Event.importPandas, Event.importInstruments,
        Event.importPricingEngines, Event.importDateOnly],
       some (PyError.importError ("System.DateOnly"))⟩ := by
  simp [runScript, runFrom, runSteps, scriptSteps, initCore,
    stepImportPythonnetLoad, stepLoadCoreclr, stepImportOs, stepImportClr,
    stepAddReference, stepImportMatplotlib, stepImportNumpy, stepImportPandas,
    stepImportInstruments, stepImportPricingEngines, stepImportDateOnly,
    bindName, h1, h2, h3, h4, h5, h6, h7, h8, h9, h10]

theorem run_success (env : Env)
    (h1 : env.pythonnetInstalled = true) (h2 : env.coreclrAvailable = true)
    (h3 : env.fileExists (abspath env.cwd artifactRelPath) = true)
    (h4 : env.artifactCompatible = true)
    (h5 : env.matplotlibInstalled = true) (h6 : env.numpyInstalled = true)
    (h7 : env.pandasInstalled = true)
    (h8 : env.artifactHasInstruments = true)
    (h9 : env.artifactHasPricingEngines = true)
    (h10 : env.dateOnlyAvailable = true) :
    runScript env =
      ⟨⟨["DateOnly", "PricingEngines", "Instruments", "pd", "np", "plt", "clr",
         "os", "load"],
        true, [abspath env.cwd artifactRelPath], [abspath env.cwd artifactRelPath]⟩,
       fullTrace, none⟩ := by
  simp [runScript, runFrom, runSteps, scriptSteps, initCore, fullTrace,
    stepImportPythonnetLoad, stepLoadCoreclr, stepImportOs, stepImportClr,
    stepAddReference, stepImportMatplotlib, stepImportNumpy, stepImportPandas,
    stepImportInstruments, stepImportPricingEngines, stepImportDateOnly,
    bindName, h1, h2, h3, h4, h5, h6, h7, h8, h9, h10]

/-! ### Claims -/

/-- C1, counterexample: in a valid environment whose process working
directory is /home/user while the invoking script lives in /nb, the only
path the script ever passes to the assembly loader is the relative
artifact path resolved (with normalization, as os.path.abspath does)
against the working directory, namely /home/src/.../DerivaSharp.dll; the
path resolved against the script location, /src/.../DerivaSharp.dll, is
never referenced. So the artifact path is not resolved relative to the
invoking script location, contrary to the claim. -/
theorem spec_c1_counterexample :
    (runScript envCwdElsewhere).core.referencedPaths =
      [abspath (envCwdElsewhere.cwd) artifactRelPath] ∧
    abspath (envCwdElsewhere.cwd) artifactRelPath ≠
      specResolvedArtifactPath envCwdElsewhere ∧
    specResolvedArtifactPath envCwdElsewhere ∉
      (runScript envCwdElsewhere).core.referencedPaths := by
  decide

/-- C1, amended: the artifact path used to load the compiled binary is the
fixed relative path made absolute against the process current working
directory (os.path.abspath), not against the invoking script location; the
relative path encodes the Release build configuration, the net9.0 target
framework, and the win-x64 platform triple. Whenever the bootstrap gets
past bridge initialization, exactly that path is referenced. -/
theorem spec_c1_amended (env : Env)
    (h1 : env.pythonnetInstalled = true) (h2 : env.coreclrAvailable = true) :
    (runScript env).core.referencedPaths = [abspath env.cwd artifactRelPath] ∧
    ("Release") ∈ artifactRelPath.segments ∧
    ("net9.0") ∈ artifactRelPath.segments ∧
    ("win-x64") ∈ artifactRelPath.segments := by
  refine ⟨?_, by decide, by decide, by decide⟩
  cases h3 : env.fileExists (abspath env.cwd artifactRelPath) with
  | false => rw [run_artifactMissing env h1 h2 h3]
  | true =>
    cases h4 : env.artifactCompatible with
    | false => rw [run_artifactIncompatible env h1 h2 h3 h4]
    | true =>
      cases h5 : env.matplotlibInstalled with
      | false => rw [run_matplotlibMissing env h1 h2 h3 h4 h5]
      | true =>
        cases h6 : env.numpyInstalled with
        | false => rw [run_numpyMissing env h1 h2 h3 h4 h5 h6]
        | true =>
          cases h7 : env.pandasInstalled with
          | false => rw [run_pandasMissing env h1 h2 h3 h4 h5 h6 h7]
          | true =>
            cases h8 : env.artifactHasInstruments with
            | false => rw [run_instrumentsMissing env h1 h2 h3 h4 h5 h6 h7 h8]
            | true =>
              cases h9 : env.artifactHasPricingEngines with
              | false =>
                rw [run_pricingEnginesMissing env h1 h2 h3 h4 h5 h6 h7 h8 h9]
              | true =>
                cases h10 : env.dateOnlyAvailable with
                | false =>
                  rw [run_dateOnlyMissing env h1 h2 h3 h4 h5 h6 h7 h8 h9 h10]
                | true =>
                  rw [run_success env h1 h2 h3 h4 h5 h6 h7 h8 h9 h10]

/-- C1, witness for the amended theorem at a concrete valid environment. -/
theorem spec_c1_amended_witness :
    (runScript validEnv).core.referencedPaths =
      [abspath validEnv.cwd artifactRelPath] ∧
    ("Release") ∈ artifactRelPath.segments ∧
    ("net9.0") ∈ artifactRelPath.segments ∧
    ("win-x64") ∈ artifactRelPath.segments :=
  spec_c1_amended validEnv rfl rfl

/-- C2: in every execution, bridge initialization strictly precedes the
artifact-load attempt whenever the latter occurs; and when the hosted
runtime is not discoverable, the artifact-load step is never attempted: no
path is ever passed to the loader and no assembly is loaded. -/
theorem spec_c2 (env : Env) :
    (Event.artifactLoad ∈ (runScript env).trace →
      (runScript env).trace.indexOf Event.bridgeInit <
        (runScript env).trace.indexOf Event.artifactLoad) ∧
    (env.coreclrAvailable = false →
      Event.artifactLoad ∉ (runScript env).trace ∧
      (runScript env).core.referencedPaths = [] ∧
      (runScript env).core.loadedAssemblies = []) := by
  cases h1 : env.pythonnetInstalled with
  | false =>
    rw [run_pythonnetMissing env h1]
    exact ⟨by decide, fun _ => by decide⟩
  | true =>
    cases h2 : env.coreclrAvailable with
    | false =>
      rw [run_coreclrMissing env h1 h2]
      exact ⟨by decide, fun _ => by decide⟩
    | true =>
      refine ⟨?_, fun hc => by simp [h2] at hc⟩
      cases h3 : env.fileExists (abspath env.cwd artifactRelPath) with
      | false => rw [run_artifactMissing env h1 h2 h3]; simp
      | true =>
        cases h4 : env.artifactCompatible with
        | false => rw [run_artifactIncompatible env h1 h2 h3 h4]; simp
        | true =>
          cases h5 : env.matplotlibInstalled with
          | false => rw [run_matplotlibMissing env h1 h2 h3 h4 h5]; simp
          | true =>
            cases h6 : env.numpyInstalled with
            | false => rw [run_numpyMissing env h1 h2 h3 h4 h5 h6]; simp
            | true =>
              cases h7 : env.pandasInstalled with
              | false => rw [run_pandasMissing env h1 h2 h3 h4 h5 h6 h7]; simp
              | true =>
                cases h8 : env.artifactHasInstruments with
                | false =>
                  rw [run_instrumentsMissing env h1 h2 h3 h4 h5 h6 h7 h8]; simp
                | true =>
                  cases h9 : env.artifactHasPricingEngines with
                  | false =>
                    rw [run_pricingEnginesMissing env h1 h2 h3 h4 h5 h6 h7 h8 h9]
                    simp
                  | true =>
                    cases h10 : env.dateOnlyAvailable with
                    | false =>
                      rw [run_dateOnlyMissing env h1 h2 h3 h4 h5 h6 h7 h8 h9 h10]
                      simp
                    | true =>
                      rw [run_success env h1 h2 h3 h4 h5 h6 h7 h8 h9 h10]
                      simp
                      decide

/-- C2, witness at a concrete environment whose hosted runtime is not
discoverable. -/
theorem spec_c2_witness :
    (Event.artifactLoad ∈ (runScript envNoCoreclr).trace →
      (runScript envNoCoreclr).trace.indexOf Event.bridgeInit <
        (runScript envNoCoreclr).trace.indexOf Event.artifactLoad) ∧
    (envNoCoreclr.coreclrAvailable = false →
      Event.artifactLoad ∉ (runScript envNoCoreclr).trace ∧
      (runScript envNoCoreclr).core.referencedPaths = [] ∧
      (runScript envNoCoreclr).core.loadedAssemblies = []) :=
  spec_c2 envNoCoreclr

/-- C3: in every valid environment (runtime discoverable, packages
installed, artifact present, compatible, exposing both domain namespaces,
date type available), one run of the bootstrap succeeds and leaves all five
advertised names plus the date-value type resolvable in the calling
scope. -/
theorem spec_c3 (env : Env)
    (h1 : env.pythonnetInstalled = true) (h2 : env.coreclrAvailable = true)
    (h3 : env.fileExists (abspath env.cwd artifactRelPath) = true)
    (h4 : env.artifactCompatible = true)
    (h5 : env.matplotlibInstalled = true) (h6 : env.numpyInstalled = true)
    (h7 : env.pandasInstalled = true)
    (h8 : env.artifactHasInstruments = true)
    (h9 : env.artifactHasPricingEngines = true)
    (h10 : env.dateOnlyAvailable = true) :
    (runScript env).err = none ∧
    ∀ n ∈ advertisedNames, n ∈ (runScript env).core.boundNames := by
  rw [run_success env h1 h2 h3 h4 h5 h6 h7 h8 h9 h10]
  refine ⟨rfl, ?_⟩
  show ∀ n ∈ advertisedNames,
    n ∈ ["DateOnly", "PricingEngines", "Instruments", "pd", "np", "plt",
         "clr", "os", "load"]
  decide

/-- C3, witness at a concrete valid environment. -/
theorem spec_c3_witness :
    (runScript validEnv).err = none ∧
    ∀ n ∈ advertisedNames, n ∈ (runScript validEnv).core.boundNames :=
  spec_c3 validEnv rfl rfl rfl rfl rfl rfl rfl rfl rfl rfl

/-- C4: when the artifact path does not exist, the bootstrap fails at the
artifact-load step with a file-not-found error, and none of the five
advertised names nor the date-value type is bound: there is no partial
binding of the advertised set. -/
theorem spec_c4 (env : Env)
    (h1 : env.pythonnetInstalled = true) (h2 : env.coreclrAvailable = true)
    (h3 : env.fileExists (abspath env.cwd artifactRelPath) = false) :
    (runScript env).err =
      some (PyError.fileNotFoundError (abspath env.cwd artifactRelPath)) ∧
    ∀ n ∈ advertisedNames, n ∉ (runScript env).core.boundNames := by
  rw [run_artifactMissing env h1 h2 h3]
  refine ⟨rfl, ?_⟩
  show ∀ n ∈ advertisedNames, n ∉ ["clr", "os", "load"]
  decide

/-- C4, witness at a concrete environment with an empty filesystem. -/
theorem spec_c4_witness :
    (runScript envNoArtifact).err =
      some (PyError.fileNotFoundError
        (abspath envNoArtifact.cwd artifactRelPath)) ∧
    ∀ n ∈ advertisedNames, n ∉ (runScript envNoArtifact).core.boundNames :=
  spec_c4 envNoArtifact rfl rfl rfl

/-- C5: no failure is caught or handled anywhere in the bootstrap: every
run attempts an initial prefix of the eleven statements in source order,
each statement at most once (no retry), a run succeeds exactly when all
eleven statements were attempted, and any earlier stop leaves the error of
the failing statement surfaced unrecovered (no fallback, no
partial-success mode). -/
theorem spec_c5 (env : Env) :
    ∃ k, k ≤ 11 ∧ (runScript env).trace = fullTrace.take k ∧
      ((runScript env).err = none → k = 11) ∧
      (runScript env).trace.Nodup ∧ fullTrace.length = 11 := by
  cases h1 : env.pythonnetInstalled with
  | false =>
      have ht : (runScript env).trace =
          [Event.importPythonnetLoad] := by
        rw [run_pythonnetMissing env h1]
      have he : (runScript env).err ≠ none := by
        rw [run_pythonnetMissing env h1]
        simp
      exact ⟨1, by decide, by rw [ht]; try decide,
        by simp [he], by rw [ht]; decide, by decide⟩
  | true =>
    cases h2 : env.coreclrAvailable with
    | false =>
        have ht : (runScript env).trace =
            [Event.importPythonnetLoad, Event.bridgeInit] := by
          rw [run_coreclrMissing env h1 h2]
        have he : (runScript env).err ≠ none := by
          rw [run_coreclrMissing env h1 h2]
          simp
        exact ⟨2, by decide, by rw [ht]; try decide,
          by simp [he], by rw [ht]; decide, by decide⟩
    | true =>
      cases h3 : env.fileExists (abspath env.cwd artifactRelPath) with
      | false =>
          have ht : (runScript env).trace =
              [Event.importPythonnetLoad, Event.bridgeInit, Event.importOs,
              Event.importClr, Event.artifactLoad] := by
            rw [run_artifactMissing env h1 h2 h3]
          have he : (runScript env).err =
              some (PyError.fileNotFoundError (abspath env.cwd artifactRelPath)) := by
            rw [run_artifactMissing env h1 h2 h3]
          exact ⟨5, by decide, by rw [ht]; try decide,
            by simp [he], by rw [ht]; decide, by decide⟩
      | true =>
        cases h4 : env.artifactCompatible with
        | false =>
            have ht : (runScript env).trace =
                [Event.importPythonnetLoad, Event.bridgeInit, Event.importOs,
                Event.importClr, Event.artifactLoad] := by
              rw [run_artifactIncompatible env h1 h2 h3 h4]
            have he : (runScript env).err =
                some (PyError.badImageFormatError (abspath env.cwd artifactRelPath)) := by
              rw [run_artifactIncompatible env h1 h2 h3 h4]
            exact ⟨5, by decide, by rw [ht]; try decide,
              by simp [he], by rw [ht]; decide, by decide⟩
        | true =>
          cases h5 : env.matplotlibInstalled with
          | false =>
              have ht : (runScript env).trace =
                  [Event.importPythonnetLoad, Event.bridgeInit, Event.importOs,
                  Event.importClr, Event.artifactLoad, Event.importMatplotlib] := by
                rw [run_matplotlibMissing env h1 h2 h3 h4 h5]
              have he : (runScript env).err ≠ none := by
                rw [run_matplotlibMissing env h1 h2 h3 h4 h5]
                simp
              exact ⟨6, by decide, by rw [ht]; try decide,
                by simp [he], by rw [ht]; decide, by decide⟩
          | true =>
            cases h6 : env.numpyInstalled with
            | false =>
                have ht : (runScript env).trace =
                    [Event.importPythonnetLoad, Event.bridgeInit, Event.importOs,
                    Event.importClr, Event.artifactLoad, Event.importMatplotlib,
                    Event.importNumpy] := by
                  rw [run_numpyMissing env h1 h2 h3 h4 h5 h6]
                have he : (runScript env).err ≠ none := by
                  rw [run_numpyMissing env h1 h2 h3 h4 h5 h6]
                  simp
                exact ⟨7, by decide, by rw [ht]; try decide,
                  by simp [he], by rw [ht]; decide, by decide⟩
            | true =>
              cases h7 : env.pandasInstalled with
              | false =>
                  have ht : (runScript env).trace =
                      [Event.importPythonnetLoad, Event.bridgeInit, Event.importOs,
                      Event.importClr, Event.artifactLoad, Event.importMatplotlib,
                      Event.importNumpy, Event.importPandas] := by
                    rw [run_pandasMissing env h1 h2 h3 h4 h5 h6 h7]
                  have he : (runScript env).err ≠ none := by
                    rw [run_pandasMissing env h1 h2 h3 h4 h5 h6 h7]
                    simp
                  exact ⟨8, by decide, by rw [ht]; try decide,
                    by simp [he], by rw [ht]; decide, by decide⟩
              | true =>
                cases h8 : env.artifactHasInstruments with
                | false =>
                    have ht : (runScript env).trace =
                        [Event.importPythonnetLoad, Event.bridgeInit, Event.importOs,
                        Event.importClr, Event.artifactLoad, Event.importMatplotlib,
                        Event.importNumpy, Event.importPandas, Event.importInstruments] := by
                      rw [run_instrumentsMissing env h1 h2 h3 h4 h5 h6 h7 h8]
                    have he : (runScript env).err ≠ none := by
                      rw [run_instrumentsMissing env h1 h2 h3 h4 h5 h6 h7 h8]
                      simp
                    exact ⟨9, by decide, by rw [ht]; try decide,
                      by simp [he], by rw [ht]; decide, by decide⟩
                | true =>
                  cases h9 : env.artifactHasPricingEngines with
                  | false =>
                      have ht : (runScript env).trace =
                          [Event.importPythonnetLoad, Event.bridgeInit, Event.importOs,
                          Event.importClr, Event.artifactLoad, Event.importMatplotlib,
                          Event.importNumpy, Event.importPandas, Event.importInstruments,
                          Event.importPricingEngines] := by
                        rw [run_pricingEnginesMissing env h1 h2 h3 h4 h5 h6 h7 h8 h9]
                      have he : (runScript env).err ≠ none := by
                        rw [run_pricingEnginesMissing env h1 h2 h3 h4 h5 h6 h7 h8 h9]
                        simp
                      exact ⟨10, by decide, by rw [ht]; try decide,
                        by simp [he], by rw [ht]; decide, by decide⟩
                  | true =>
                    cases h10 : env.dateOnlyAvailable with
                    | false =>
                        have ht : (runScript env).trace =
                            [Event.importPythonnetLoad, Event.bridgeInit, Event.importOs,
                            Event.importClr, Event.artifactLoad, Event.importMatplotlib,
                            Event.importNumpy, Event.importPandas, Event.importInstruments,
                            Event.importPricingEngines, Event.importDateOnly] := by
                          rw [run_dateOnlyMissing env h1 h2 h3 h4 h5 h6 h7 h8 h9 h10]
                        have he : (runScript env).err ≠ none := by
                          rw [run_dateOnlyMissing env h1 h2 h3 h4 h5 h6 h7 h8 h9 h10]
                          simp
                        exact ⟨11, by decide, by rw [ht]; try decide,
                          by simp [he], by rw [ht]; decide, by decide⟩
                    | true =>
                        have ht : (runScript env).trace =
                            fullTrace := by
                          rw [run_success env h1 h2 h3 h4 h5 h6 h7 h8 h9 h10]
                        have he : (runScript env).err = none := by
                          rw [run_success env h1 h2 h3 h4 h5 h6 h7 h8 h9 h10]
                        exact ⟨11, by decide, by rw [ht]; try decide,
                          by simp [he], by rw [ht]; decide, by decide⟩

/-- C5, witness at a concrete valid environment. -/
theorem spec_c5_witness :
    ∃ k, k ≤ 11 ∧ (runScript validEnv).trace = fullTrace.take k ∧
      ((runScript validEnv).err = none → k = 11) ∧
      (runScript validEnv).trace.Nodup ∧ fullTrace.length = 11 :=
  spec_c5 validEnv

/-- C6: running the bootstrap a second time in the same session, starting
from the state the first run left behind, yields exactly the same set of
bound names as the single run, even though the script contains no guard
against double initialization. -/
theorem spec_c6 (env : Env) :
    (runFrom env (runScript env).core).core.boundNames =
      (runScript env).core.boundNames := by
  cases h1 : env.pythonnetInstalled with
  | false =>
    rw [run_pythonnetMissing env h1]
    simp [runFrom, runSteps, scriptSteps, stepImportPythonnetLoad, h1]
  | true =>
    cases h2 : env.coreclrAvailable with
    | false =>
      rw [run_coreclrMissing env h1 h2]
      simp [runFrom, runSteps, scriptSteps, stepImportPythonnetLoad,
        stepLoadCoreclr, bindName, h1, h2]
    | true =>
      cases h3 : env.fileExists (abspath env.cwd artifactRelPath) with
      | false =>
        rw [run_artifactMissing env h1 h2 h3]
        simp [runFrom, runSteps, scriptSteps, stepImportPythonnetLoad,
          stepLoadCoreclr, stepImportOs, stepImportClr, stepAddReference,
          bindName, h1, h2, h3]
      | true =>
        cases h4 : env.artifactCompatible with
        | false =>
          rw [run_artifactIncompatible env h1 h2 h3 h4]
          simp [runFrom, runSteps, scriptSteps, stepImportPythonnetLoad,
            stepLoadCoreclr, stepImportOs, stepImportClr, stepAddReference,
            bindName, h1, h2, h3, h4]
        | true =>
          cases h5 : env.matplotlibInstalled with
          | false =>
            rw [run_matplotlibMissing env h1 h2 h3 h4 h5]
            simp [runFrom, runSteps, scriptSteps, stepImportPythonnetLoad,
              stepLoadCoreclr, stepImportOs, stepImportClr, stepAddReference,
              stepImportMatplotlib, bindName, h1, h2, h3, h4, h5]
          | true =>
            cases h6 : env.numpyInstalled with
            | false =>
              rw [run_numpyMissing env h1 h2 h3 h4 h5 h6]
              simp [runFrom, runSteps, scriptSteps, stepImportPythonnetLoad,
                stepLoadCoreclr, stepImportOs, stepImportClr, stepAddReference,
                stepImportMatplotlib, stepImportNumpy, bindName,
                h1, h2, h3, h4, h5, h6]
            | true =>
              cases h7 : env.pandasInstalled with
              | false =>
                rw [run_pandasMissing env h1 h2 h3 h4 h5 h6 h7]
                simp [runFrom, runSteps, scriptSteps, stepImportPythonnetLoad,
                  stepLoadCoreclr, stepImportOs, stepImportClr,
                  stepAddReference, stepImportMatplotlib, stepImportNumpy,
                  stepImportPandas, bindName, h1, h2, h3, h4, h5, h6, h7]
              | true =>
                cases h8 : env.artifactHasInstruments with
                | false =>
                  rw [run_instrumentsMissing env h1 h2 h3 h4 h5 h6 h7 h8]
                  simp [runFrom, runSteps, scriptSteps, stepImportPythonnetLoad,
                    stepLoadCoreclr, stepImportOs, stepImportClr,
                    stepAddReference, stepImportMatplotlib, stepImportNumpy,
                    stepImportPandas, stepImportInstruments, bindName,
                    h1, h2, h3, h4, h5, h6, h7, h8]
                | true =>
                  cases h9 : env.artifactHasPricingEngines with
                  | false =>
                    rw [run_pricingEnginesMissing env h1 h2 h3 h4 h5 h6 h7 h8 h9]
                    simp [runFrom, runSteps, scriptSteps,
                      stepImportPythonnetLoad, stepLoadCoreclr, stepImportOs,
                      stepImportClr, stepAddReference, stepImportMatplotlib,
                      stepImportNumpy, stepImportPandas, stepImportInstruments,
                      stepImportPricingEngines, bindName,
                      h1, h2, h3, h4, h5, h6, h7, h8, h9]
                  | true =>
                    cases h10 : env.dateOnlyAvailable with
                    | false =>
                      rw [run_dateOnlyMissing env h1 h2 h3 h4 h5 h6 h7 h8 h9 h10]
                      simp [runFrom, runSteps, scriptSteps,
                        stepImportPythonnetLoad, stepLoadCoreclr, stepImportOs,
                        stepImportClr, stepAddReference, stepImportMatplotlib,
                        stepImportNumpy, stepImportPandas,
                        stepImportInstruments, stepImportPricingEngines,
                        stepImportDateOnly, bindName,
                        h1, h2, h3, h4, h5, h6, h7, h8, h9, h10]
                    | true =>
                      rw [run_success env h1 h2 h3 h4 h5 h6 h7 h8 h9 h10]
                      simp [runFrom, runSteps, scriptSteps,
                        stepImportPythonnetLoad, stepLoadCoreclr, stepImportOs,
                        stepImportClr, stepAddReference, stepImportMatplotlib,
                        stepImportNumpy, stepImportPandas,
                        stepImportInstruments, stepImportPricingEngines,
                        stepImportDateOnly, bindName,
                        h1, h2, h3, h4, h5, h6, h7, h8, h9, h10]

/-- C7: with a discoverable runtime, an existing and compatible artifact,
and the utility packages installed, an artifact built without the
PricingEngines namespace makes the bootstrap fail at the namespace-import
step with a name-resolution error naming DerivaSharp.PricingEngines - a
class distinct from the file-not-found and bad-image-format artifact-load
failures - and only after the artifact has been loaded: the loaded
assembly is recorded and the artifact-load attempt strictly precedes the
failing import in the trace. -/
theorem spec_c7 (env : Env)
    (h1 : env.pythonnetInstalled = true) (h2 : env.coreclrAvailable = true)
    (h3 : env.fileExists (abspath env.cwd artifactRelPath) = true)
    (h4 : env.artifactCompatible = true)
    (h5 : env.matplotlibInstalled = true) (h6 : env.numpyInstalled = true)
    (h7 : env.pandasInstalled = true)
    (h8 : env.artifactHasInstruments = true)
    (h9 : env.artifactHasPricingEngines = false) :
    (runScript env).err =
      some (PyError.moduleNotFoundError ("DerivaSharp.PricingEngines")) ∧
    (∀ p, (runScript env).err ≠ some (PyError.fileNotFoundError p) ∧
          (runScript env).err ≠ some (PyError.badImageFormatError p)) ∧
    abspath env.cwd artifactRelPath ∈ (runScript env).core.loadedAssemblies ∧
    Event.artifactLoad ∈ (runScript env).trace ∧
    (runScript env).trace.indexOf Event.artifactLoad <
      (runScript env).trace.indexOf Event.importPricingEngines := by
  rw [run_pricingEnginesMissing env h1 h2 h3 h4 h5 h6 h7 h8 h9]
  exact ⟨rfl, fun p => ⟨by simp, by simp⟩, by simp, by simp, by simp⟩

/-- C7, witness at a concrete environment whose artifact lacks the
PricingEngines namespace. -/
theorem spec_c7_witness :
    (runScript envNoPricingEngines).err =
      some (PyError.moduleNotFoundError ("DerivaSharp.PricingEngines")) ∧
    (∀ p, (runScript envNoPricingEngines).err ≠
            some (PyError.fileNotFoundError p) ∧
          (runScript envNoPricingEngines).err ≠
            some (PyError.badImageFormatError p)) ∧
    abspath envNoPricingEngines.cwd artifactRelPath ∈
      (runScript envNoPricingEngines).core.loadedAssemblies ∧
    Event.artifactLoad ∈ (runScript envNoPricingEngines).trace ∧
    (runScript envNoPricingEngines).trace.indexOf Event.artifactLoad <
      (runScript envNoPricingEngines).trace.indexOf
        Event.importPricingEngines :=
  spec_c7 envNoPricingEngines rfl rfl rfl rfl rfl rfl rfl rfl rfl

/-- C8: the bootstrap takes no input; its outcome is a function of the
fixed relative path and the ambient environment alone. Two environments
that agree on the packages installed, runtime discoverability, the working
directory, artifact compatibility and exposed namespaces, and on whether
the one referenced artifact path exists, give identical run results -
bound names, trace, loaded assemblies and error - whatever their script
directories and the rest of their filesystems. -/
theorem spec_c8 (e1 e2 : Env)
    (hpn : e1.pythonnetInstalled = e2.pythonnetInstalled)
    (hcc : e1.coreclrAvailable = e2.coreclrAvailable)
    (hcwd : e1.cwd = e2.cwd)
    (hfile : e1.fileExists (abspath e1.cwd artifactRelPath) =
             e2.fileExists (abspath e2.cwd artifactRelPath))
    (hcompat : e1.artifactCompatible = e2.artifactCompatible)
    (hmpl : e1.matplotlibInstalled = e2.matplotlibInstalled)
    (hnp : e1.numpyInstalled = e2.numpyInstalled)
    (hpd : e1.pandasInstalled = e2.pandasInstalled)
    (hins : e1.artifactHasInstruments = e2.artifactHasInstruments)
    (hpe : e1.artifactHasPricingEngines = e2.artifactHasPricingEngines)
    (hdo : e1.dateOnlyAvailable = e2.dateOnlyAvailable) :
    runScript e1 = runScript e2 := by
  cases h1 : e1.pythonnetInstalled with
  | false =>
    rw [run_pythonnetMissing e1 h1,
      run_pythonnetMissing e2 (hpn.symm.trans h1)]
  | true =>
    cases h2 : e1.coreclrAvailable with
    | false =>
      rw [run_coreclrMissing e1 h1 h2,
        run_coreclrMissing e2 (hpn.symm.trans h1) (hcc.symm.trans h2)]
    | true =>
      cases h3 : e1.fileExists (abspath e1.cwd artifactRelPath) with
      | false =>
        rw [run_artifactMissing e1 h1 h2 h3,
          run_artifactMissing e2 (hpn.symm.trans h1) (hcc.symm.trans h2)
            (hfile.symm.trans h3), hcwd]
      | true =>
        cases h4 : e1.artifactCompatible with
        | false =>
          rw [run_artifactIncompatible e1 h1 h2 h3 h4,
            run_artifactIncompatible e2 (hpn.symm.trans h1)
              (hcc.symm.trans h2) (hfile.symm.trans h3)
              (hcompat.symm.trans h4), hcwd]
        | true =>
          cases h5 : e1.matplotlibInstalled with
          | false =>
            rw [run_matplotlibMissing e1 h1 h2 h3 h4 h5,
              run_matplotlibMissing e2 (hpn.symm.trans h1) (hcc.symm.trans h2)
                (hfile.symm.trans h3) (hcompat.symm.trans h4)
                (hmpl.symm.trans h5), hcwd]
          | true =>
            cases h6 : e1.numpyInstalled with
            | false =>
              rw [run_numpyMissing e1 h1 h2 h3 h4 h5 h6,
                run_numpyMissing e2 (hpn.symm.trans h1) (hcc.symm.trans h2)
                  (hfile.symm.trans h3) (hcompat.symm.trans h4)
                  (hmpl.symm.trans h5) (hnp.symm.trans h6), hcwd]
            | true =>
              cases h7 : e1.pandasInstalled with
              | false =>
                rw [run_pandasMissing e1 h1 h2 h3 h4 h5 h6 h7,
                  run_pandasMissing e2 (hpn.symm.trans h1) (hcc.symm.trans h2)
                    (hfile.symm.trans h3) (hcompat.symm.trans h4)
                    (hmpl.symm.trans h5) (hnp.symm.trans h6)
                    (hpd.symm.trans h7), hcwd]
              | true =>
                cases h8 : e1.artifactHasInstruments with
                | false =>
                  rw [run_instrumentsMissing e1 h1 h2 h3 h4 h5 h6 h7 h8,
                    run_instrumentsMissing e2 (hpn.symm.trans h1)
                      (hcc.symm.trans h2) (hfile.symm.trans h3)
                      (hcompat.symm.trans h4) (hmpl.symm.trans h5)
                      (hnp.symm.trans h6) (hpd.symm.trans h7)
                      (hins.symm.trans h8), hcwd]
                | true =>
                  cases h9 : e1.artifactHasPricingEngines with
                  | false =>
                    rw [run_pricingEnginesMissing e1 h1 h2 h3 h4 h5 h6 h7 h8 h9,
                      run_pricingEnginesMissing e2 (hpn.symm.trans h1)
                        (hcc.symm.trans h2) (hfile.symm.trans h3)
                        (hcompat.symm.trans h4) (hmpl.symm.trans h5)
                        (hnp.symm.trans h6) (hpd.symm.trans h7)
                        (hins.symm.trans h8) (hpe.symm.trans h9), hcwd]
                  | true =>
                    cases h10 : e1.dateOnlyAvailable with
                    | false =>
                      rw [run_dateOnlyMissing e1 h1 h2 h3 h4 h5 h6 h7 h8 h9 h10,
                        run_dateOnlyMissing e2 (hpn.symm.trans h1)
                          (hcc.symm.trans h2) (hfile.symm.trans h3)
                          (hcompat.symm.trans h4) (hmpl.symm.trans h5)
                          (hnp.symm.trans h6) (hpd.symm.trans h7)
                          (hins.symm.trans h8) (hpe.symm.trans h9)
                          (hdo.symm.trans h10), hcwd]
                    | true =>
                      rw [run_success e1 h1 h2 h3 h4 h5 h6 h7 h8 h9 h10,
                        run_success e2 (hpn.symm.trans h1) (hcc.symm.trans h2)
                          (hfile.symm.trans h3) (hcompat.symm.trans h4)
                          (hmpl.symm.trans h5) (hnp.symm.trans h6)
                          (hpd.symm.trans h7) (hins.symm.trans h8)
                          (hpe.symm.trans h9) (hdo.symm.trans h10), hcwd]

/-- C8, witness: two concrete environments that differ in their script
directory and in the rest of their filesystems, yet agree on every
observable the script consults, produce identical run results. -/
theorem spec_c8_witness : runScript validEnv = runScript envObsTwin :=
  spec_c8 validEnv envObsTwin rfl rfl rfl (by decide) rfl rfl rfl rfl rfl rfl
    rfl

/-- C9: because the utility imports come strictly before the domain
imports, a missing matplotlib, numpy or pandas aborts the bootstrap after
the bridge is active and the artifact loaded, but before Instruments,
PricingEngines or DateOnly is ever bound. -/
theorem spec_c9 (env : Env)
    (h1 : env.pythonnetInstalled = true) (h2 : env.coreclrAvailable = true)
    (h3 : env.fileExists (abspath env.cwd artifactRelPath) = true)
    (h4 : env.artifactCompatible = true)
    (hm : env.matplotlibInstalled = false ∨ env.numpyInstalled = false ∨
          env.pandasInstalled = false) :
    (runScript env).err ≠ none ∧
    (runScript env).core.bridgeInitialized = true ∧
    abspath env.cwd artifactRelPath ∈ (runScript env).core.loadedAssemblies ∧
    ("Instruments") ∉ (runScript env).core.boundNames ∧
    ("PricingEngines") ∉ (runScript env).core.boundNames ∧
    ("DateOnly") ∉ (runScript env).core.boundNames := by
  rcases hm with h5 | h6 | h7
  · rw [run_matplotlibMissing env h1 h2 h3 h4 h5]
    exact ⟨by simp, rfl, by simp, by simp, by simp, by simp⟩
  · cases h5 : env.matplotlibInstalled with
    | false =>
      rw [run_matplotlibMissing env h1 h2 h3 h4 h5]
      exact ⟨by simp, rfl, by simp, by simp, by simp, by simp⟩
    | true =>
      rw [run_numpyMissing env h1 h2 h3 h4 h5 h6]
      exact ⟨by simp, rfl, by simp, by simp, by simp, by simp⟩
  · cases h5 : env.matplotlibInstalled with
    | false =>
      rw [run_matplotlibMissing env h1 h2 h3 h4 h5]
      exact ⟨by simp, rfl, by simp, by simp, by simp, by simp⟩
    | true =>
      cases h6 : env.numpyInstalled with
      | false =>
        rw [run_numpyMissing env h1 h2 h3 h4 h5 h6]
        exact ⟨by simp, rfl, by simp, by simp, by simp, by simp⟩
      | true =>
        rw [run_pandasMissing env h1 h2 h3 h4 h5 h6 h7]
        exact ⟨by simp, rfl, by simp, by simp, by simp, by simp⟩

/-- C9, witness at a concrete environment with matplotlib missing. -/
theorem spec_c9_witness :
    (runScript envNoMatplotlib).err ≠ none ∧
    (runScript envNoMatplotlib).core.bridgeInitialized = true ∧
    abspath envNoMatplotlib.cwd artifactRelPath ∈
      (runScript envNoMatplotlib).core.loadedAssemblies ∧
    ("Instruments") ∉ (runScript envNoMatplotlib).core.boundNames ∧
    ("PricingEngines") ∉ (runScript envNoMatplotlib).core.boundNames ∧
    ("DateOnly") ∉ (runScript envNoMatplotlib).core.boundNames :=
  spec_c9 envNoMatplotlib rfl rfl rfl rfl (Or.inl rfl)

/-- C10: beyond the advertised names, the bootstrap also binds load, os
and clr; once pythonnet is installed and the runtime is discoverable these
three are bound in every run, and in particular they remain bound when the
artifact path does not exist - a run in which the bootstrap fails and none
of the advertised names is bound. -/
theorem spec_c10 (env : Env)
    (h1 : env.pythonnetInstalled = true) (h2 : env.coreclrAvailable = true) :
    ("load") ∈ (runScript env).core.boundNames ∧
    ("os") ∈ (runScript env).core.boundNames ∧
    ("clr") ∈ (runScript env).core.boundNames ∧
    (env.fileExists (abspath env.cwd artifactRelPath) = false →
      (runScript env).err =
        some (PyError.fileNotFoundError (abspath env.cwd artifactRelPath)) ∧
      ∀ n ∈ advertisedNames, n ∉ (runScript env).core.boundNames) := by
  cases h3 : env.fileExists (abspath env.cwd artifactRelPath) with
  | false =>
    rw [run_artifactMissing env h1 h2 h3]
    refine ⟨by simp, by simp, by simp, fun _ => ⟨rfl, ?_⟩⟩
    show ∀ n ∈ advertisedNames, n ∉ ["clr", "os", "load"]
    decide
  | true =>
    cases h4 : env.artifactCompatible with
    | false =>
      rw [run_artifactIncompatible env h1 h2 h3 h4]
      exact ⟨by simp, by simp, by simp, fun hf => by simp [h3] at hf⟩
    | true =>
      cases h5 : env.matplotlibInstalled with
      | false =>
        rw [run_matplotlibMissing env h1 h2 h3 h4 h5]
        exact ⟨by simp, by simp, by simp, fun hf => by simp [h3] at hf⟩
      | true =>
        cases h6 : env.numpyInstalled with
        | false =>
          rw [run_numpyMissing env h1 h2 h3 h4 h5 h6]
          exact ⟨by simp, by simp, by simp, fun hf => by simp [h3] at hf⟩
        | true =>
          cases h7 : env.pandasInstalled with
          | false =>
            rw [run_pandasMissing env h1 h2 h3 h4 h5 h6 h7]
            exact ⟨by simp, by simp, by simp, fun hf => by simp [h3] at hf⟩
          | true =>
            cases h8 : env.artifactHasInstruments with
            | false =>
              rw [run_instrumentsMissing env h1 h2 h3 h4 h5 h6 h7 h8]
              exact ⟨by simp, by simp, by simp, fun hf => by simp [h3] at hf⟩
            | true =>
              cases h9 : env.artifactHasPricingEngines with
              | false =>
                rw [run_pricingEnginesMissing env h1 h2 h3 h4 h5 h6 h7 h8 h9]
                exact ⟨by simp, by simp, by simp, fun hf => by simp [h3] at hf⟩
              | true =>
                cases h10 : env.dateOnlyAvailable with
                | false =>
                  rw [run_dateOnlyMissing env h1 h2 h3 h4 h5 h6 h7 h8 h9 h10]
                  exact ⟨by simp, by simp, by simp,
                    fun hf => by simp [h3] at hf⟩
                | true =>
                  rw [run_success env h1 h2 h3 h4 h5 h6 h7 h8 h9 h10]
                  exact ⟨by simp, by simp, by simp,
                    fun hf => by simp [h3] at hf⟩

/-- C10, witness at a concrete environment with an empty filesystem, where
load, os and clr are bound while no advertised name is. -/
theorem spec_c10_witness :
    ("load") ∈ (runScript envNoArtifact).core.boundNames ∧
    ("os") ∈ (runScript envNoArtifact).core.boundNames ∧
    ("clr") ∈ (runScript envNoArtifact).core.boundNames ∧
    (envNoArtifact.fileExists (abspath envNoArtifact.cwd artifactRelPath) =
        false →
      (runScript envNoArtifact).err =
        some (PyError.fileNotFoundError
          (abspath envNoArtifact.cwd artifactRelPath)) ∧
      ∀ n ∈ advertisedNames, n ∉ (runScript envNoArtifact).core.boundNames) :=
  spec_c10 envNoArtifact rfl rfl

end DerivaSharpBootstrap
